import Mathlib

/-!
Shallow embedding of the kube-arangodb control-plane core:
the ServiceMonitor resource reconciler (`EnsureServiceMonitor`, `makeEndpoint`)
and the backup lifecycle state machine's `Unavailable` handler
(`stateUnavailableHandler`), with theorems settling the spec's claims.

External collaborators (the monitoring-resource client, the backup status
source, the CA secret lookup) are embedded as explicit environment records
holding the response each external call returns during one invocation.
-/

namespace KubeArango

/-! ## Backup state machine: data model -/

/-- The backup metadata snapshot returned by the external status source
(`driver.BackupMeta`): id, availability flag and the per-shard piece counts. -/
structure BackupMeta where
  ID : String
  Available : Bool
  NumberOfDBServers : Nat
  NumberOfPiecesPresent : Nat
deriving DecidableEq, Repr

/-- Modelled from the spec: the `BackupState` enum of the backup API package
(`backupApi.ArangoBackupState*`), which is not among the embedded sources.
The spec lists the states `New, Pending, Unavailable, Ready, Deleted, Failed`. -/
inductive ArangoBackupState
  | New
  | Pending
  | Unavailable
  | Ready
  | Deleted
  | Failed
deriving DecidableEq, Repr

/-- The persisted status of one backup record (`ArangoBackupStatus`): current
state, human-readable message, availability flag and the last stored
`backupMeta` snapshot (`Status.Backup`, absent until first stored). -/
structure ArangoBackupStatus where
  state : ArangoBackupState
  message : String
  available : Bool
  backup : Option BackupMeta
deriving DecidableEq, Repr

/-- The backup resource as the handler sees it: its persisted status. -/
structure ArangoBackup where
  status : ArangoBackupStatus
deriving DecidableEq, Repr

/-! ## Status update composer

Modelled from the spec (section 4.4): the composer helpers
`updateStatusState`, `updateStatusAvailable`, `updateStatusBackup` and
`wrapUpdateStatus` live in the backup handler package, which is not among
the embedded sources.  Each helper is one field mutation; `wrapUpdateStatus`
applies the mutations in order to a copy of the record's status and returns
the composed update. -/

/-- Modelled from the spec: mutation setting the state (and its message). -/
def updateStatusState (s : ArangoBackupState) (msg : String)
    (st : ArangoBackupStatus) : ArangoBackupStatus :=
  { st with state := s, message := msg }

/-- Modelled from the spec: mutation setting the availability flag. -/
def updateStatusAvailable (b : Bool) (st : ArangoBackupStatus) :
    ArangoBackupStatus :=
  { st with available := b }

/-- Modelled from the spec: mutation storing the `backupMeta` snapshot. -/
def updateStatusBackup (meta : BackupMeta) (st : ArangoBackupStatus) :
    ArangoBackupStatus :=
  { st with backup := some meta }

/-- Modelled from the spec: `wrapUpdateStatus` applies the given field
mutations, in order, to a copy of the record's status: one atomic composed
status update. -/
def wrapUpdateStatus (backup : ArangoBackup)
    (fs : List (ArangoBackupStatus → ArangoBackupStatus)) : ArangoBackupStatus :=
  fs.foldl (fun st f => f st) backup.status

/-! ## Backup handler errors and environment -/

/-- Classified (or passed-through) errors of the backup handler:
`plain` is the unwrapped error returned from the deployment lookup,
`temporary` is `newTemporaryError`, `fatal msg` is `newFatalErrorf msg`. -/
inductive BackupError
  | plain
  | temporary
  | fatal (msg : String)
deriving DecidableEq, Repr

/-- Response of the external status source's `Get(backupID)` call. -/
inductive LookupResult
  | success (meta : BackupMeta)
  | notFound
  | otherError
deriving DecidableEq, Repr

/-- Responses of the external calls one `stateUnavailableHandler` invocation
makes: the deployment-object lookup, the client-factory call and the backup
lookup. -/
structure UnavailableEnv where
  deploymentOk : Bool
  clientOk : Bool
  backupLookup : LookupResult
deriving DecidableEq, Repr

/-- Embedding of `stateUnavailableHandler`: resolve the owning deployment
(failure returned unwrapped), obtain a client (failure is temporary), require
`Status.Backup` to be set (absence is fatal), then look the backup up and
compose the status update per the observed metadata. -/
def stateUnavailableHandler (env : UnavailableEnv) (backup : ArangoBackup) :
    Except BackupError ArangoBackupStatus :=
  if env.deploymentOk = false then
    .error .plain
  else if env.clientOk = false then
    .error .temporary
  else
    match backup.status.backup with
    | none => .error (.fatal "missing field .status.backup")
    | some _ =>
      match env.backupLookup with
      | .notFound =>
          .ok (wrapUpdateStatus backup
            [updateStatusState .Deleted "",
             updateStatusAvailable false])
      | .otherError =>
          .ok (wrapUpdateStatus backup
            [updateStatusAvailable false])
      | .success backupMeta =>
          if backupMeta.Available = false ∨
              backupMeta.NumberOfDBServers ≠ backupMeta.NumberOfPiecesPresent then
            .ok (wrapUpdateStatus backup
              [updateStatusState .Unavailable "",
               updateStatusBackup backupMeta,
               updateStatusAvailable false])
          else
            .ok (wrapUpdateStatus backup
              [updateStatusBackup backupMeta,
               updateStatusState .Ready "",
               updateStatusAvailable true])

/-! ## Resource reconciler: data model -/

/-- Modelled from the spec: the label key/name constants of the shared
`k8sutil` package (not among the embedded sources); the exact strings are
immaterial to the claims, only which keys each label map carries. -/
def LabelKeyArangoDeployment : String := "arango_deployment"

/-- Modelled from the spec: see `LabelKeyArangoDeployment`. -/
def LabelKeyApp : String := "app"

/-- Modelled from the spec: see `LabelKeyArangoDeployment`. -/
def AppName : String := "arangodb"

/-- Labels stamped on the created ServiceMonitor. -/
def LabelsForExporterServiceMonitor (deploymentName : String) :
    List (String × String) :=
  [(LabelKeyArangoDeployment, deploymentName),
   (LabelKeyApp, AppName),
   ("context", "metrics")]

/-- Selector labels binding the ServiceMonitor to the deployment's services. -/
def LabelsForExporterServiceMonitorSelector (deploymentName : String) :
    List (String × String) :=
  [(LabelKeyArangoDeployment, deploymentName),
   (LabelKeyApp, AppName)]

/-- Modelled from the spec: `k8sutil.CreateExporterClientServiceName`, the
deterministic resource name derived from the deployment name (helper not
among the embedded sources). -/
def CreateExporterClientServiceName (deploymentName : String) : String :=
  deploymentName ++ "-exporter"

/-- TLS configuration of a monitoring endpoint (`coreosv1.TLSConfig`);
`CAFile` keeps Go's zero value `""` when not set. -/
structure TLSConfig where
  CAFile : String := ""
  InsecureSkipVerify : Bool := false
deriving DecidableEq, Repr

/-- A monitoring endpoint (`coreosv1.Endpoint`). -/
structure Endpoint where
  Port : String
  Interval : String
  Scheme : String
  TLSConfig : Option TLSConfig := none
deriving DecidableEq, Repr

/-- Object metadata of the created ServiceMonitor: name, labels and the
owner reference (the owning deployment's identity). -/
structure ObjectMeta where
  name : String
  labels : List (String × String)
  ownerReferences : List String
deriving DecidableEq, Repr

/-- Spec of the created ServiceMonitor (`coreosv1.ServiceMonitorSpec`). -/
structure ServiceMonitorSpec where
  jobLabel : String
  endpoints : List Endpoint
  selectorMatchLabels : List (String × String)
deriving DecidableEq, Repr

/-- The monitoring resource the reconciler creates (`coreosv1.ServiceMonitor`). -/
structure ServiceMonitor where
  objectMeta : ObjectMeta
  spec : ServiceMonitorSpec
deriving DecidableEq, Repr

/-- The desired-state snapshot one `EnsureServiceMonitor` call reads from the
deployment: name, owner identity, whether metrics are enabled
(`spec.Metrics.IsEnabled()`) and whether the deployment is secure
(`spec.IsSecure()`). -/
structure DeploymentIntent where
  deploymentName : String
  owner : String
  metricsEnabled : Bool
  secure : Bool
deriving DecidableEq, Repr

/-- Embedding of `makeEndpoint`: `caLookup` is the response of the CA secret
lookup (`k8sutil.GetCASecret`), giving the certificate on success.  A secure
deployment gets an https endpoint, verified against the CA when the lookup
succeeded and with verification skipped otherwise; an insecure deployment
gets a plain http endpoint with no TLS config. -/
def makeEndpoint (caLookup : Except Unit String) (isSecure : Bool) : Endpoint :=
  if isSecure then
    match caLookup with
    | .ok cert =>
        { Port := "exporter", Interval := "10s", Scheme := "https",
          TLSConfig := some { CAFile := cert, InsecureSkipVerify := false } }
    | .error _ =>
        { Port := "exporter", Interval := "10s", Scheme := "https",
          TLSConfig := some { InsecureSkipVerify := true } }
  else
    { Port := "exporter", Interval := "10s", Scheme := "http" }

/-- How the monitoring client's `Get` of the ServiceMonitor responded. -/
inductive GetResult
  | found
  | notFound
  | otherErr
deriving DecidableEq, Repr

/-- The kind of failure the client's `Create` reported, when it failed. -/
inductive CreateErrKind
  | validationOrConflict
  | other
deriving DecidableEq, Repr

/-- The kind of failure the client's `Delete` reported, when it failed;
`notFoundMiss` is the client reporting the resource already absent. -/
inductive DeleteErrKind
  | notFoundMiss
  | other
deriving DecidableEq, Repr

/-- The underlying client failures `EnsureServiceMonitor` can observe. -/
inductive ClientErr
  | clientInitFail
  | getFail
  | createFail (k : CreateErrKind)
  | deleteFail (k : DeleteErrKind)
deriving DecidableEq, Repr

/-- The caller-visible error of `EnsureServiceMonitor`.  `masked e` is
`maskAny` applied to the underlying client error; `fatal` and `temporary`
are the classifier's kinds (`newFatalErrorf` / `newTemporaryError`), listed
so theorems can state which classification, if any, a path produces. -/
inductive ReconcileError
  | masked (e : ClientErr)
  | fatal
  | temporary
deriving DecidableEq, Repr

/-- Modelled from the spec: `maskAny` from the shared util package is not
among the embedded sources.  It wraps an error for propagation without
changing which error it is and without assigning a `Fatal`/`Temporary`
kind — in the embedded sources classification is always done by the explicit
constructors (`newTemporaryError`, `newFatalErrorf`) at call sites. -/
def maskAny (e : ClientErr) : ReconcileError := .masked e

/-- Responses of the external calls one `EnsureServiceMonitor` invocation
may make: monitoring-client construction, the resource `Get`, and the
`Create`/`Delete` outcome (`none` = success) if that call is reached;
`caLookup` is the CA secret lookup used by `makeEndpoint`. -/
structure EnsureEnv where
  monitoringClientOk : Bool
  getResult : GetResult
  createResult : Option CreateErrKind
  deleteResult : Option DeleteErrKind
  caLookup : Except Unit String
deriving Repr

/-- One mutating call performed on the monitoring-resource client. -/
inductive MutCall
  | create (smon : ServiceMonitor)
  | delete (name : String)
deriving DecidableEq, Repr

/-- Whether a mutating call is a `Create`. -/
def MutCall.isCreate : MutCall → Bool
  | .create _ => true
  | .delete _ => false

/-- Whether a mutating call is a `Delete`. -/
def MutCall.isDelete : MutCall → Bool
  | .create _ => false
  | .delete _ => true

/-- Embedding of `EnsureServiceMonitor`: returns the caller-visible result
together with the trace of mutating calls issued to the monitoring client.
Not found and metrics unwanted: no-op.  Not found and metrics wanted: build
and `Create` the ServiceMonitor, masking any create failure.  Found and
metrics wanted: no-op.  Found and metrics unwanted: `Delete`, masking any
delete failure.  A `Get` failure other than not-found, or a failure to build
the client, is masked and nothing is mutated. -/
def EnsureServiceMonitor (env : EnsureEnv) (intent : DeploymentIntent) :
    Except ReconcileError Unit × List MutCall :=
  let serviceMonitorName := CreateExporterClientServiceName intent.deploymentName
  if env.monitoringClientOk = false then
    (.error (maskAny .clientInitFail), [])
  else
    match env.getResult with
    | .otherErr => (.error (maskAny .getFail), [])
    | .notFound =>
        if intent.metricsEnabled = false then
          (.ok (), [])
        else
          let smon : ServiceMonitor :=
            { objectMeta :=
                { name := serviceMonitorName,
                  labels := LabelsForExporterServiceMonitor intent.deploymentName,
                  ownerReferences := [intent.owner] },
              spec :=
                { jobLabel := "k8s-app",
                  endpoints := [makeEndpoint env.caLookup intent.secure],
                  selectorMatchLabels :=
                    LabelsForExporterServiceMonitorSelector intent.deploymentName } }
          match env.createResult with
          | none => (.ok (), [.create smon])
          | some k => (.error (maskAny (.createFail k)), [.create smon])
    | .found =>
        if intent.metricsEnabled = true then
          (.ok (), [])
        else
          match env.deleteResult with
          | none => (.ok (), [.delete serviceMonitorName])
          | some k => (.error (maskAny (.deleteFail k)), [.delete serviceMonitorName])

/-! ## Shared concrete inputs used by the witnesses -/

/-- A metadata snapshot that is available with all pieces present. -/
def metaReadyW : BackupMeta :=
  { ID := "b1", Available := true, NumberOfDBServers := 3,
    NumberOfPiecesPresent := 3 }

/-- A metadata snapshot with one piece missing. -/
def metaPartialW : BackupMeta :=
  { ID := "b1", Available := true, NumberOfDBServers := 3,
    NumberOfPiecesPresent := 2 }

/-- An unavailable-state backup record whose `Status.Backup` is set. -/
def backupRecW : ArangoBackup :=
  { status := { state := .Unavailable, message := "", available := false,
                backup := some metaPartialW } }

/-! ## Claims about the backup state machine -/

/-- Claim C1: in the Unavailable handler, when the backup lookup succeeds
with `backupMeta`, the composed status update stores the `backupMeta`
snapshot and sets state `Unavailable` with `available = false` when the
metadata is unavailable or the piece counts differ, and state `Ready` with
`available = true` when it is available with equal counts. -/
theorem unavailable_success_applies_table
    (env : UnavailableEnv) (backup : ArangoBackup) (meta : BackupMeta)
    (hd : env.deploymentOk = true) (hc : env.clientOk = true)
    (hb : backup.status.backup.isSome = true)
    (hl : env.backupLookup = .success meta) :
    ∃ st, stateUnavailableHandler env backup = .ok st ∧
      st.backup = some meta ∧
      ((meta.Available = false ∨
          meta.NumberOfDBServers ≠ meta.NumberOfPiecesPresent) →
        st.state = .Unavailable ∧ st.available = false) ∧
      ((meta.Available = true ∧
          meta.NumberOfDBServers = meta.NumberOfPiecesPresent) →
        st.state = .Ready ∧ st.available = true) := by
  cases hsb : backup.status.backup with
  | none => simp [hsb] at hb
  | some d =>
    by_cases hcond : meta.Available = false ∨
        meta.NumberOfDBServers ≠ meta.NumberOfPiecesPresent
    · refine ⟨{ state := .Unavailable, message := "", available := false,
                backup := some meta }, ?_, rfl, fun _ => ⟨rfl, rfl⟩,
              fun hpos => ?_⟩
      · simp [stateUnavailableHandler, hd, hc, hsb, hl, hcond,
              wrapUpdateStatus, updateStatusState, updateStatusBackup,
              updateStatusAvailable]
      · rcases hcond with h | h
        · rw [hpos.1] at h
          exact absurd h (by decide)
        · exact absurd hpos.2 h
    · rw [not_or] at hcond
      obtain ⟨hA, hN⟩ := hcond
      rw [Bool.not_eq_false] at hA
      rw [not_not] at hN
      refine ⟨{ state := .Ready, message := "", available := true,
                backup := some meta }, ?_, rfl, fun hneg => ?_,
              fun _ => ⟨rfl, rfl⟩⟩
      · simp [stateUnavailableHandler, hd, hc, hsb, hl, hA, hN,
              wrapUpdateStatus, updateStatusState, updateStatusBackup,
              updateStatusAvailable]
      · rcases hneg with h | h
        · rw [hA] at h
          exact absurd h (by decide)
        · exact absurd hN h

/-- Witness for C1 at a concrete available, equal-count lookup. -/
theorem unavailable_success_applies_table_witness :
    ∃ st, stateUnavailableHandler
        { deploymentOk := true, clientOk := true,
          backupLookup := .success metaReadyW } backupRecW = .ok st ∧
      st.backup = some metaReadyW ∧
      ((metaReadyW.Available = false ∨
          metaReadyW.NumberOfDBServers ≠ metaReadyW.NumberOfPiecesPresent) →
        st.state = .Unavailable ∧ st.available = false) ∧
      ((metaReadyW.Available = true ∧
          metaReadyW.NumberOfDBServers = metaReadyW.NumberOfPiecesPresent) →
        st.state = .Ready ∧ st.available = true) :=
  unavailable_success_applies_table _ _ metaReadyW rfl rfl rfl rfl

/-- Claim C2: whenever the Unavailable handler returns a status update, its
`available` flag is true exactly when the lookup succeeded with an available
metadata snapshot whose piece counts are equal; on every other
update-returning path it is false. -/
theorem unavailable_available_only_verified
    (env : UnavailableEnv) (backup : ArangoBackup) (st : ArangoBackupStatus)
    (h : stateUnavailableHandler env backup = .ok st) :
    (st.available = true ↔
      ∃ meta, env.backupLookup = .success meta ∧ meta.Available = true ∧
        meta.NumberOfDBServers = meta.NumberOfPiecesPresent) := by
  obtain ⟨d, c, lk⟩ := env
  cases d with
  | false => simp [stateUnavailableHandler] at h
  | true =>
    cases c with
    | false => simp [stateUnavailableHandler] at h
    | true =>
      cases hsb : backup.status.backup with
      | none => simp [stateUnavailableHandler, hsb] at h
      | some dd =>
        cases lk with
        | notFound =>
            simp [stateUnavailableHandler, hsb, wrapUpdateStatus,
                  updateStatusState, updateStatusAvailable] at h
            subst h
            simp
        | otherError =>
            simp [stateUnavailableHandler, hsb, wrapUpdateStatus,
                  updateStatusAvailable] at h
            subst h
            simp
        | success meta =>
            by_cases hcond : meta.Available = false ∨
                meta.NumberOfDBServers ≠ meta.NumberOfPiecesPresent
            · simp [stateUnavailableHandler, hsb, hcond, wrapUpdateStatus,
                    updateStatusState, updateStatusBackup,
                    updateStatusAvailable] at h
              subst h
              simp only [LookupResult.success.injEq]
              constructor
              · intro hav
                exact absurd hav (by decide)
              · rintro ⟨m, hm, hA, hN⟩
                subst hm
                rcases hcond with hbad | hbad
                · rw [hA] at hbad
                  exact absurd hbad (by decide)
                · exact absurd hN hbad
            · rw [not_or] at hcond
              obtain ⟨hA, hN⟩ := hcond
              rw [Bool.not_eq_false] at hA
              rw [not_not] at hN
              simp [stateUnavailableHandler, hsb, hA, hN, wrapUpdateStatus,
                    updateStatusState, updateStatusBackup,
                    updateStatusAvailable] at h
              subst h
              simp [hA, hN]

/-- Witness for C2 at a concrete lookup result and the update it yields. -/
theorem unavailable_available_only_verified_witness :
    (({ state := .Ready, message := "", available := true,
        backup := some metaReadyW } : ArangoBackupStatus).available = true ↔
      ∃ meta, ({ deploymentOk := true, clientOk := true,
                 backupLookup := .success metaReadyW } :
            UnavailableEnv).backupLookup = .success meta ∧
        meta.Available = true ∧
        meta.NumberOfDBServers = meta.NumberOfPiecesPresent) :=
  unavailable_available_only_verified
    { deploymentOk := true, clientOk := true,
      backupLookup := .success metaReadyW }
    backupRecW
    { state := .Ready, message := "", available := true,
      backup := some metaReadyW }
    (by simp [stateUnavailableHandler, backupRecW, metaReadyW, metaPartialW,
              wrapUpdateStatus, updateStatusState, updateStatusBackup,
              updateStatusAvailable])

/-- Claim C3: in the Unavailable handler, a not-found lookup yields a status
update with state `Deleted` and `available = false`, whatever the record's
prior stored metadata was. -/
theorem unavailable_notfound_deleted
    (env : UnavailableEnv) (backup : ArangoBackup)
    (hd : env.deploymentOk = true) (hc : env.clientOk = true)
    (hb : backup.status.backup.isSome = true)
    (hl : env.backupLookup = .notFound) :
    ∃ st, stateUnavailableHandler env backup = .ok st ∧
      st.state = .Deleted ∧ st.available = false := by
  cases hsb : backup.status.backup with
  | none => simp [hsb] at hb
  | some d =>
    refine ⟨{ backup.status with
              state := .Deleted
              message := ""
              available := false }, ?_, rfl, rfl⟩
    simp [stateUnavailableHandler, hd, hc, hsb, hl, wrapUpdateStatus,
          updateStatusState, updateStatusAvailable]

/-- Witness for C3 at a concrete record holding stale metadata. -/
theorem unavailable_notfound_deleted_witness :
    ∃ st, stateUnavailableHandler
        { deploymentOk := true, clientOk := true, backupLookup := .notFound }
        backupRecW = .ok st ∧
      st.state = .Deleted ∧ st.available = false :=
  unavailable_notfound_deleted _ backupRecW rfl rfl rfl rfl

/-- Claim C4: an Unavailable-state record whose `Status.Backup` field is
absent makes the handler return the fatal missing-field error — not a
temporary error and not a silent success. -/
theorem unavailable_missing_backup_fatal
    (env : UnavailableEnv) (backup : ArangoBackup)
    (hd : env.deploymentOk = true) (hc : env.clientOk = true)
    (hb : backup.status.backup = none) :
    stateUnavailableHandler env backup =
      .error (.fatal "missing field .status.backup") := by
  simp [stateUnavailableHandler, hd, hc, hb]

/-- Witness for C4 at a concrete record with no stored backup id. -/
theorem unavailable_missing_backup_fatal_witness :
    stateUnavailableHandler
      { deploymentOk := true, clientOk := true, backupLookup := .otherError }
      { status := { state := .Unavailable, message := "", available := false,
                    backup := none } } =
      .error (.fatal "missing field .status.backup") :=
  unavailable_missing_backup_fatal _ _ rfl rfl rfl

/-- Claim C5: in the Unavailable handler, a lookup failure other than
not-found yields exactly the prior status with `available` set to false: the
state stays `Unavailable` and the stored metadata snapshot is unchanged. -/
theorem unavailable_other_error_frame
    (env : UnavailableEnv) (backup : ArangoBackup)
    (hd : env.deploymentOk = true) (hc : env.clientOk = true)
    (hb : backup.status.backup.isSome = true)
    (hs : backup.status.state = .Unavailable)
    (hl : env.backupLookup = .otherError) :
    stateUnavailableHandler env backup =
      .ok { backup.status with available := false } ∧
    ({ backup.status with available := false } : ArangoBackupStatus).state =
      .Unavailable ∧
    ({ backup.status with available := false } : ArangoBackupStatus).backup =
      backup.status.backup := by
  cases hsb : backup.status.backup with
  | none => simp [hsb] at hb
  | some d =>
    refine ⟨?_, hs, rfl⟩
    simp [stateUnavailableHandler, hd, hc, hsb, hl, wrapUpdateStatus,
          updateStatusAvailable]

/-- Witness for C5 at a concrete record and a failing lookup. -/
theorem unavailable_other_error_frame_witness :
    stateUnavailableHandler
      { deploymentOk := true, clientOk := true, backupLookup := .otherError }
      backupRecW = .ok { backupRecW.status with available := false } ∧
    ({ backupRecW.status with available := false } :
        ArangoBackupStatus).state = .Unavailable ∧
    ({ backupRecW.status with available := false } :
        ArangoBackupStatus).backup = backupRecW.status.backup :=
  unavailable_other_error_frame _ backupRecW rfl rfl rfl rfl rfl

/-! ## Shared concrete inputs for the reconciler claims -/

/-- An intent with metrics enabled. -/
def intentMetricsW : DeploymentIntent :=
  { deploymentName := "d", owner := "o", metricsEnabled := true,
    secure := false }

/-- An intent with metrics disabled. -/
def intentNoMetricsW : DeploymentIntent :=
  { deploymentName := "d", owner := "o", metricsEnabled := false,
    secure := false }

/-- An environment in which the resource is absent and `Create` reports a
validation/conflict failure. -/
def envCreateConflictW : EnsureEnv :=
  { monitoringClientOk := true, getResult := .notFound,
    createResult := some .validationOrConflict, deleteResult := none,
    caLookup := .error () }

/-- An environment in which the resource is present and `Delete` reports it
already absent. -/
def envDeleteMissW : EnsureEnv :=
  { monitoringClientOk := true, getResult := .found, createResult := none,
    deleteResult := some .notFoundMiss, caLookup := .error () }

/-! ## Claims about the resource reconciler -/

/-- Claim C6: re-invoking the reconciler against an external state that
already matches the intent — resource absent with metrics disabled, or
resource present with metrics enabled — performs no mutating call on the
monitoring client. -/
theorem ensure_idempotent_no_mutation
    (env : EnsureEnv) (intent : DeploymentIntent)
    (h : (env.getResult = .notFound ∧ intent.metricsEnabled = false) ∨
         (env.getResult = .found ∧ intent.metricsEnabled = true)) :
    (EnsureServiceMonitor env intent).2 = [] := by
  rcases h with ⟨hg, hm⟩ | ⟨hg, hm⟩ <;>
    cases hmc : env.monitoringClientOk <;>
      simp [EnsureServiceMonitor, hg, hm, hmc]

/-- Witness for C6 at a present resource with metrics enabled. -/
theorem ensure_idempotent_no_mutation_witness :
    (EnsureServiceMonitor
      { monitoringClientOk := true, getResult := .found,
        createResult := none, deleteResult := none, caLookup := .error () }
      intentMetricsW).2 = [] :=
  ensure_idempotent_no_mutation _ _ (Or.inr ⟨rfl, rfl⟩)

/-- Claim C7: the built endpoint always has port name `"exporter"` and
interval `"10s"`; a secure intent with a successful CA lookup gives an https
endpoint verified against that CA, a secure intent with a failed CA lookup
gives an https endpoint with verification skipped, and an insecure intent
gives an http endpoint with no TLS config. -/
theorem makeEndpoint_cases (cert : String) (ca : Except Unit String) :
    makeEndpoint (.ok cert) true =
      { Port := "exporter", Interval := "10s", Scheme := "https",
        TLSConfig := some { CAFile := cert, InsecureSkipVerify := false } } ∧
    makeEndpoint (.error ()) true =
      { Port := "exporter", Interval := "10s", Scheme := "https",
        TLSConfig := some { CAFile := "", InsecureSkipVerify := true } } ∧
    makeEndpoint ca false =
      { Port := "exporter", Interval := "10s", Scheme := "http",
        TLSConfig := none } :=
  ⟨rfl, rfl, rfl⟩

/-- Claim C8 counterexample: at a create failure the client reports as a
validation/conflict failure, the surfaced error is the masked client error —
neither the `Fatal` classification the claim requires there nor
`Temporary`. -/
theorem ensure_create_fail_unclassified_cex :
    (EnsureServiceMonitor envCreateConflictW intentMetricsW).1 =
      .error (.masked (.createFail .validationOrConflict)) ∧
    (EnsureServiceMonitor envCreateConflictW intentMetricsW).1 ≠
      .error .fatal ∧
    (EnsureServiceMonitor envCreateConflictW intentMetricsW).1 ≠
      .error .temporary := by
  refine ⟨rfl, ?_, ?_⟩ <;> simp [EnsureServiceMonitor, envCreateConflictW,
    intentMetricsW, maskAny]

/-- Claim C8 (amended): when the reconciler's `Create` call fails, the
failure surfaces to the caller as the masked underlying client error, with
no `Temporary` or `Fatal` classification; a validation/conflict failure is
surfaced the same way as any other create failure. -/
theorem ensure_create_fail_masked
    (env : EnsureEnv) (intent : DeploymentIntent) (k : CreateErrKind)
    (hmc : env.monitoringClientOk = true)
    (hg : env.getResult = .notFound)
    (hm : intent.metricsEnabled = true)
    (hk : env.createResult = some k) :
    (EnsureServiceMonitor env intent).1 =
      .error (maskAny (.createFail k)) := by
  simp [EnsureServiceMonitor, hmc, hg, hm, hk]

/-- Witness for C8's amended claim at a concrete failing create. -/
theorem ensure_create_fail_masked_witness :
    (EnsureServiceMonitor envCreateConflictW intentMetricsW).1 =
      .error (maskAny (.createFail .validationOrConflict)) :=
  ensure_create_fail_masked _ _ _ rfl rfl rfl rfl

/-- Claim C9 counterexample: when the resource is found, metrics are
disabled and `Delete` reports the resource already absent, the caller-visible
result is the masked not-found error — not success, and not a `Temporary`
classification. -/
theorem ensure_delete_miss_errors_cex :
    (EnsureServiceMonitor envDeleteMissW intentNoMetricsW).1 =
      .error (.masked (.deleteFail .notFoundMiss)) ∧
    (EnsureServiceMonitor envDeleteMissW intentNoMetricsW).1 ≠ .ok () ∧
    (EnsureServiceMonitor envDeleteMissW intentNoMetricsW).1 ≠
      .error .temporary := by
  refine ⟨rfl, ?_, ?_⟩ <;> simp [EnsureServiceMonitor, envDeleteMissW,
    intentNoMetricsW, maskAny]

/-- Claim C9 (amended): when the reconciler deletes the monitoring resource
(resource found, metrics disabled) and `Delete` fails — including the client
reporting the resource already absent — the failure surfaces to the caller
as the masked delete error, with no `Temporary` classification; the result
is success only when `Delete` itself reports none. -/
theorem ensure_delete_fail_masked
    (env : EnsureEnv) (intent : DeploymentIntent) (k : DeleteErrKind)
    (hmc : env.monitoringClientOk = true)
    (hg : env.getResult = .found)
    (hm : intent.metricsEnabled = false)
    (hk : env.deleteResult = some k) :
    (EnsureServiceMonitor env intent).1 =
      .error (maskAny (.deleteFail k)) := by
  simp [EnsureServiceMonitor, hmc, hg, hm, hk]

/-- Witness for C9's amended claim at a concrete already-absent delete. -/
theorem ensure_delete_fail_masked_witness :
    (EnsureServiceMonitor envDeleteMissW intentNoMetricsW).1 =
      .error (maskAny (.deleteFail .notFoundMiss)) :=
  ensure_delete_fail_masked _ _ _ rfl rfl rfl rfl

/-- Claim C10: one `EnsureServiceMonitor` invocation performs at most one
mutating call; a `Create` is issued only when the `Get` reported not-found
with metrics enabled, a `Delete` only when the resource was found with
metrics disabled, and never both in one invocation. -/
theorem ensure_at_most_one_mutation
    (env : EnsureEnv) (intent : DeploymentIntent) :
    (EnsureServiceMonitor env intent).2.length ≤ 1 ∧
    ((EnsureServiceMonitor env intent).2.any MutCall.isCreate = true →
      env.getResult = .notFound ∧ intent.metricsEnabled = true) ∧
    ((EnsureServiceMonitor env intent).2.any MutCall.isDelete = true →
      env.getResult = .found ∧ intent.metricsEnabled = false) ∧
    ¬((EnsureServiceMonitor env intent).2.any MutCall.isCreate = true ∧
      (EnsureServiceMonitor env intent).2.any MutCall.isDelete = true) := by
  obtain ⟨mc, gr, cr, dr, ca⟩ := env
  cases mc <;> cases gr <;>
    rcases hm : intent.metricsEnabled with _ | _ <;>
      cases cr <;> cases dr <;>
        simp [EnsureServiceMonitor, hm, MutCall.isCreate, MutCall.isDelete]

end KubeArango
